import Mathlib

/-!
Verification of the CompleteDiscordQuest plugin core.

This file gives a shallow embedding, in Lean, of the parts of the plugin that
the specification claims talk about:

* the captcha token cache (`getCachedToken`, `cacheToken`, `cleanupExpiredTokens`);
* captcha challenge detection (`detectCaptchaChallenge`);
* the multi-provider captcha bypass (`bypassCaptcha`), with the network
  round trips of each provider abstracted as externally supplied outcomes;
* the per-quest task handlers for `STREAM_ON_DESKTOP` and `PLAY_ON_DESKTOP`
  (their heartbeat event callbacks, folded over a list of delivered events);
* redeem-code extraction and persistence (`gatherRedeemCodes`,
  `appendRedeemCodes`);
* the claim procedure (`claimQuestReward`) with its claim-deduplication guard.

JavaScript maps and sets are modelled as association lists keeping insertion
order (matching JS `Map`/`Set` iteration order); time is a natural number of
milliseconds; JS truthiness of optional strings, arrays and booleans is made
explicit by the `truthy*` helpers.
-/

namespace CompleteDiscordQuest

/-! ## Association-list primitives (model of JS `Map` / `Set`) -/

/-- Lookup in an insertion-ordered association list (JS `Map.get`). -/
def mapGet {α : Type} (m : List (String × α)) (k : String) : Option α :=
  match m with
  | [] => none
  | (k', v) :: rest => if k' = k then some v else mapGet rest k

/-- Update or append in an insertion-ordered association list (JS `Map.set`:
an existing key keeps its position, a new key is appended). -/
def mapSet {α : Type} (m : List (String × α)) (k : String) (v : α) :
    List (String × α) :=
  match m with
  | [] => [(k, v)]
  | (k', v') :: rest =>
    if k' = k then (k, v) :: rest else (k', v') :: mapSet rest k v

/-- Removal from an association list (JS `Map.delete`). -/
def mapDelete {α : Type} (m : List (String × α)) (k : String) :
    List (String × α) :=
  m.filter (fun p => p.1 ≠ k)

/-- Insertion into an insertion-ordered set of strings (JS `Set.add`). -/
def insertUnique (l : List String) (s : String) : List String :=
  if s ∈ l then l else l ++ [s]

/-- JS-Set construction from a list: keep the first occurrence of each
element, in order (`Array.from(new Set(xs))`). -/
def dedupList (l : List String) : List String :=
  l.foldl insertUnique []

/-! ## JS truthiness helpers -/

/-- Truthiness of an optional string: present and non-empty. -/
def truthyOptStr (o : Option String) : Bool :=
  match o with
  | some s => decide (s ≠ "")
  | none => false

/-- Truthiness of an optional array: any array (even empty) is truthy. -/
def truthyKey (o : Option (List String)) : Bool :=
  o.isSome

/-- Truthiness of `Map.get` on a boolean-valued map: `undefined` and `false`
are falsy. -/
def jsTruthyFlag (o : Option Bool) : Bool :=
  match o with
  | some b => b
  | none => false

/-- JS `a || d` on an optional string field, with a string default. -/
def jsOrStr (o : Option String) (d : String) : String :=
  match o with
  | some s => if s = "" then d else s
  | none => d

/-! ## JS string operations

Models of the JS string methods the source uses (`trim`, `split("\n")`,
`join("\n")`), written structurally over the character list so that they
evaluate on concrete inputs. -/

/-- JS `String.prototype.trim`: strip whitespace from both ends. -/
def jsTrim (s : String) : String :=
  ⟨((s.data.dropWhile Char.isWhitespace).reverse.dropWhile
      Char.isWhitespace).reverse⟩

/-- Helper for `splitOnNewline`: accumulate the current line (reversed). -/
def splitOnNewlineAux : List Char → List Char → List (List Char)
  | [], cur => [cur.reverse]
  | c :: rest, cur =>
    if c = '\n' then cur.reverse :: splitOnNewlineAux rest []
    else splitOnNewlineAux rest (c :: cur)

/-- JS `str.split("\n")`. -/
def splitOnNewline (s : String) : List String :=
  (splitOnNewlineAux s.data []).map (fun l => ⟨l⟩)

/-- JS `lines.join("\n")`. -/
def joinWithNewline : List String → String
  | [] => ""
  | [x] => x
  | x :: y :: rest => x ++ "\n" ++ joinWithNewline (y :: rest)

/-! ## Token cache

Source: the token cache of the captcha module (`getCachedToken`,
`cacheToken`, `cleanupExpiredTokens`, `CACHE_LIFETIME_MS`). The global
`Map` is passed and returned explicitly; `Date.now()` becomes a `now`
argument. -/

/-- Entry of the token cache, as in the `TokenCacheEntry` interface. -/
structure TokenCacheEntry where
  token : String
  sitekey : String
  timestamp : Nat
  expiresAt : Nat
deriving Repr, DecidableEq

/-- The token cache: sitekey to cached entry. -/
abbrev TokenCache := List (String × TokenCacheEntry)

/-- Cache TTL: 2 minutes, `CACHE_LIFETIME_MS = 120000`. -/
def CACHE_LIFETIME_MS : Nat := 120000

/-- Model of `getCachedToken`: look the sitekey up; a present entry whose
expiry has passed (`Date.now() > entry.expiresAt`) is deleted and `null`
returned; otherwise the cached token is returned. Returns the token (if any)
and the possibly-mutated cache. -/
def getCachedToken (now : Nat) (sitekey : String) (cache : TokenCache) :
    Option String × TokenCache :=
  match mapGet cache sitekey with
  | none => (none, cache)
  | some entry =>
    if entry.expiresAt < now then (none, mapDelete cache sitekey)
    else (some entry.token, cache)

/-- Model of `cacheToken`: store the token under the sitekey with a fresh
TTL window (`expiresAt = now + CACHE_LIFETIME_MS`). -/
def cacheToken (now : Nat) (sitekey token : String) (cache : TokenCache) :
    TokenCache :=
  mapSet cache sitekey
    { token := token, sitekey := sitekey, timestamp := now
    , expiresAt := now + CACHE_LIFETIME_MS }

/-- Model of `cleanupExpiredTokens`: the periodic sweep deletes every entry
whose expiry has passed. -/
def cleanupExpiredTokens (now : Nat) (cache : TokenCache) : TokenCache :=
  cache.filter (fun p => ¬ p.2.expiresAt < now)

/-! ## Challenge detection

Source: `detectCaptchaChallenge`. A response (or thrown error) is modelled
as a payload of the known captcha fields, an opaque list of unrelated field
names (ignored by detection), and an optional nested `body` payload. -/

/-- The captcha-related fields detection looks at, each optional
(absent = not present on the JS object). -/
structure ChallengePayload where
  captcha_key : Option (List String)
  captcha_sitekey : Option String
  captcha_service : Option String
  captcha_rqdata : Option String
  captcha_rqtoken : Option String
  extra : List String
deriving Repr, DecidableEq

/-- A response or error object: its top-level fields and the optional
nested `body`. -/
structure ApiResponse where
  top : ChallengePayload
  body : Option ChallengePayload
deriving Repr, DecidableEq

/-- The structured challenge descriptor (`CaptchaChallenge` interface). -/
structure CaptchaChallenge where
  captcha_key : Option (List String)
  captcha_sitekey : Option String
  captcha_service : Option String
  captcha_rqdata : Option String
  captcha_rqtoken : Option String
deriving Repr, DecidableEq

/-- Descriptor built from a payload, as in both branches of
`detectCaptchaChallenge` (service defaulted to `"hcaptcha"`). -/
def challengeOfPayload (p : ChallengePayload) : CaptchaChallenge :=
  { captcha_key := p.captcha_key
  , captcha_sitekey := p.captcha_sitekey
  , captcha_service := some (jsOrStr p.captcha_service "hcaptcha")
  , captcha_rqdata := p.captcha_rqdata
  , captcha_rqtoken := p.captcha_rqtoken }

/-- JS-truthy test driving both guards of `detectCaptchaChallenge`:
`x.captcha_key || x.captcha_sitekey`. -/
def hasChallengeMarkers (p : ChallengePayload) : Bool :=
  truthyKey p.captcha_key || truthyOptStr p.captcha_sitekey

/-- Model of `detectCaptchaChallenge`: a null/undefined argument gives
`null`; otherwise the top-level object is checked first, then the nested
`body` (if present); an object with neither gives `null`. -/
def detectCaptchaChallenge (r : Option ApiResponse) : Option CaptchaChallenge :=
  match r with
  | none => none
  | some resp =>
    if hasChallengeMarkers resp.top then some (challengeOfPayload resp.top)
    else
      match resp.body with
      | some b =>
        if hasChallengeMarkers b then some (challengeOfPayload b) else none
      | none => none

/-! ## Captcha bypass

Source: `bypassCaptcha` and the provider solvers `solveWithNopeCHA`,
`solveWithCapSolver`, `solveWith2Captcha`, plus the DOM fallback
`autoSolveHCaptchaCheckbox`. Every network round trip (the body of a solver
after its API-key guard, and the whole DOM fallback) is abstracted as an
externally supplied `CaptchaBypassResult`; the bypass logic itself —
cache-first lookup, missing-sitekey failure, service-list construction,
in-order trial with short-circuit, caching of a successful token, and the
fallback gate — is translated directly. -/

/-- Result type of the solvers and of `bypassCaptcha`
(`CaptchaBypassResult` interface). -/
structure CaptchaBypassResult where
  success : Bool
  token : Option String
  error : Option String
deriving Repr, DecidableEq

/-- Configured API keys (`apiKeys` parameter); an absent field is an
unconfigured provider. -/
structure ApiKeys where
  nopecha : Option String
  twoCaptcha : Option String
  capsolver : Option String
deriving Repr, DecidableEq

/-- Outcomes of the external interactions: what each provider's network
flow would return if run, and what the DOM fallback would return. -/
structure ProviderNet where
  nopecha : CaptchaBypassResult
  capsolver : CaptchaBypassResult
  twoCaptcha : CaptchaBypassResult
  fallback : CaptchaBypassResult
deriving Repr, DecidableEq

/-- Model of `solveWithNopeCHA`: a blank API key fails without any network
interaction; otherwise the outcome is the network flow result. -/
def solveWithNopeCHA (apiKey : String) (net : CaptchaBypassResult) :
    CaptchaBypassResult :=
  if jsTrim apiKey = "" then
    { success := false, token := none
    , error := some "NopeCHA API key not configured" }
  else net

/-- Model of `solveWith2Captcha` (same key guard, abstracted
submit-then-poll flow). -/
def solveWith2Captcha (apiKey : String) (net : CaptchaBypassResult) :
    CaptchaBypassResult :=
  if jsTrim apiKey = "" then
    { success := false, token := none
    , error := some "2Captcha API key not configured" }
  else net

/-- Model of `solveWithCapSolver` (same key guard, abstracted
create-then-poll flow). -/
def solveWithCapSolver (apiKey : String) (net : CaptchaBypassResult) :
    CaptchaBypassResult :=
  if jsTrim apiKey = "" then
    { success := false, token := none
    , error := some "CapSolver API key not configured" }
  else net

/-- A service candidate: provider name and the result its solver yields. -/
structure ServiceEntry where
  name : String
  result : CaptchaBypassResult
deriving Repr, DecidableEq

/-- Model of the service-list construction in `bypassCaptcha`: under
`"auto"` (or an absent/falsy preference) all key-bearing providers in the
fixed order NopeCHA, CapSolver, 2Captcha; under a specific preference only
that provider, and only if its key is configured. -/
def buildServices (pref : Option String) (keys : ApiKeys) (net : ProviderNet) :
    List ServiceEntry :=
  if pref = some "auto" ∨ truthyOptStr pref = false then
    (if truthyOptStr keys.nopecha then
      [{ name := "NopeCHA"
       , result := solveWithNopeCHA (keys.nopecha.getD "") net.nopecha }]
     else []) ++
    (if truthyOptStr keys.capsolver then
      [{ name := "CapSolver"
       , result := solveWithCapSolver (keys.capsolver.getD "") net.capsolver }]
     else []) ++
    (if truthyOptStr keys.twoCaptcha then
      [{ name := "2Captcha"
       , result := solveWith2Captcha (keys.twoCaptcha.getD "") net.twoCaptcha }]
     else [])
  else if pref = some "nopecha" ∧ truthyOptStr keys.nopecha then
    [{ name := "NopeCHA"
     , result := solveWithNopeCHA (keys.nopecha.getD "") net.nopecha }]
  else if pref = some "2captcha" ∧ truthyOptStr keys.twoCaptcha then
    [{ name := "2Captcha"
     , result := solveWith2Captcha (keys.twoCaptcha.getD "") net.twoCaptcha }]
  else if pref = some "capsolver" ∧ truthyOptStr keys.capsolver then
    [{ name := "CapSolver"
     , result := solveWithCapSolver (keys.capsolver.getD "") net.capsolver }]
  else []

/-- Outcome of a `bypassCaptcha` run: the returned result, the final token
cache, the providers whose solver was invoked (in order), and whether the
DOM fallback was attempted. -/
structure BypassOutcome where
  result : CaptchaBypassResult
  cache : TokenCache
  providerCalls : List String
  fallbackTried : Bool
deriving Repr, DecidableEq

/-- Model of the `for (const service of services)` loop: invoke the
services in order; the first result with `success` and a truthy token is
cached under the sitekey and short-circuits the rest. -/
def runServices (now : Nat) (sitekey : String) :
    List ServiceEntry → TokenCache → List String →
    Option CaptchaBypassResult × TokenCache × List String
  | [], cache, calls => (none, cache, calls)
  | s :: rest, cache, calls =>
    if s.result.success && truthyOptStr s.result.token then
      (some s.result, cacheToken now sitekey (s.result.token.getD "") cache,
       calls ++ [s.name])
    else runServices now sitekey rest cache (calls ++ [s.name])

/-- The tail of `bypassCaptcha` after the cache/sitekey guards: try the
services, then (unless the preference is `"fallback"`) the DOM fallback,
caching any successful token; otherwise fail with the final error. -/
def bypassCaptchaSolve (now : Nat) (sitekey : String) (pref : Option String)
    (keys : ApiKeys) (net : ProviderNet) (cache : TokenCache) : BypassOutcome :=
  match runServices now sitekey (buildServices pref keys net) cache [] with
  | (some res, cache2, calls) =>
    { result := res, cache := cache2, providerCalls := calls
    , fallbackTried := false }
  | (none, cache2, calls) =>
    if pref = some "fallback" then
      { result := { success := false, token := none
                  , error := some "All captcha solving methods failed" }
      , cache := cache2, providerCalls := calls, fallbackTried := false }
    else if net.fallback.success && truthyOptStr net.fallback.token then
      { result := net.fallback
      , cache := cacheToken now sitekey (net.fallback.token.getD "") cache2
      , providerCalls := calls, fallbackTried := true }
    else
      { result := { success := false, token := none
                  , error := some "All captcha solving methods failed" }
      , cache := cache2, providerCalls := calls, fallbackTried := true }

/-- Model of `bypassCaptcha`: with a truthy sitekey an unexpired cached
token is returned immediately; a falsy sitekey fails with
"No sitekey in challenge"; otherwise the providers (and fallback) run. -/
def bypassCaptcha (now : Nat) (challenge : CaptchaChallenge)
    (pref : Option String) (keys : ApiKeys) (net : ProviderNet)
    (cache : TokenCache) : BypassOutcome :=
  if truthyOptStr challenge.captcha_sitekey then
    match getCachedToken now (challenge.captcha_sitekey.getD "") cache with
    | (some tok, cache1) =>
      { result := { success := true, token := some tok, error := none }
      , cache := cache1, providerCalls := [], fallbackTried := false }
    | (none, cache1) =>
      bypassCaptchaSolve now (challenge.captcha_sitekey.getD "") pref keys net
        cache1
  else
    { result := { success := false, token := none
                , error := some "No sitekey in challenge" }
    , cache := cache, providerCalls := [], fallbackTried := false }

/-! ## Task handlers

Source: the heartbeat event callbacks of `streamOnDesktopHandler` and
`playOnDesktopHandler` (`QUESTS_SEND_HEARTBEAT_SUCCESS` subscriptions).
The externally delivered event stream becomes a list folded over the
handler state; `FluxDispatcher.unsubscribe` becomes the `subscribed` flag
(an unsubscribed callback no longer sees events); the completion callback
`onQuestComplete` is counted in `completions`. The `RUNNING_GAMES_CHANGE`
notifications the play handler emits are outward bus traffic and are not
part of the state. -/

/-- The `userStatus` payload of a heartbeat event: the flat
`streamProgressSeconds` field of protocol version 1 and the
keyed-by-task-name `progress.<TASK>.value` field of later versions. -/
structure UserStatus where
  streamProgressSeconds : ℚ
  progress : String → ℚ

/-- A `QUESTS_SEND_HEARTBEAT_SUCCESS` event. -/
structure HeartbeatEvent where
  questId : String
  userStatus : UserStatus

/-- The mutable state a handler callback touches: the shared
`completingQuest` tracker, the two fake-presence registries (by quest id),
whether the callback is still subscribed, and how many times the completion
callback has been invoked. -/
structure QuestRunState where
  completingQuest : List (String × Bool)
  fakeApplications : List String
  fakeGames : List String
  subscribed : Bool
  completions : Nat

/-- The progress value the stream handler compares, exactly as the source
computes it: raw `streamProgressSeconds` for `configVersion === 1`, else
`Math.floor(userStatus.progress.STREAM_ON_DESKTOP.value)`. -/
def progCodeStream (configVersion : Nat) (e : HeartbeatEvent) : ℚ :=
  if configVersion = 1 then e.userStatus.streamProgressSeconds
  else ((⌊e.userStatus.progress "STREAM_ON_DESKTOP"⌋ : ℤ) : ℚ)

/-- Same for the play handler (`progress.PLAY_ON_DESKTOP.value`). -/
def progCodePlay (configVersion : Nat) (e : HeartbeatEvent) : ℚ :=
  if configVersion = 1 then e.userStatus.streamProgressSeconds
  else ((⌊e.userStatus.progress "PLAY_ON_DESKTOP"⌋ : ℤ) : ℚ)

/-- The raw progress value carried by an event for the stream task, before
any flooring (used to state claims about floored progress). -/
def rawStreamProgress (configVersion : Nat) (e : HeartbeatEvent) : ℚ :=
  if configVersion = 1 then e.userStatus.streamProgressSeconds
  else e.userStatus.progress "STREAM_ON_DESKTOP"

/-- Same for the play task. -/
def rawPlayProgress (configVersion : Nat) (e : HeartbeatEvent) : ℚ :=
  if configVersion = 1 then e.userStatus.streamProgressSeconds
  else e.userStatus.progress "PLAY_ON_DESKTOP"

/-- Model of the `streamOnDesktop` event callback: events for other quests
are ignored; if the tracker flag is falsy or the progress reached the
target, the registry entry is removed and the callback unsubscribes, then
the completion callback fires exactly when the target was reached,
otherwise the tracker entry is set to `false`. -/
def streamOnDesktopEvent (questId : String) (secondsNeeded configVersion : Nat)
    (s : QuestRunState) (e : HeartbeatEvent) : QuestRunState :=
  if s.subscribed = false then s
  else if e.questId ≠ questId then s
  else
    let progress := progCodeStream configVersion e
    if jsTruthyFlag (mapGet s.completingQuest questId) = false ∨
        (secondsNeeded : ℚ) ≤ progress then
      let s1 : QuestRunState :=
        { s with
            fakeApplications := s.fakeApplications.filter (· ≠ questId),
            subscribed := false }
      if (secondsNeeded : ℚ) ≤ progress then
        { s1 with completions := s1.completions + 1 }
      else
        { s1 with completingQuest := mapSet s1.completingQuest questId false }
    else s

/-- Model of the `playOnDesktop` event callback (identical logic; the
registry is the fake running-games map). -/
def playOnDesktopEvent (questId : String) (secondsNeeded configVersion : Nat)
    (s : QuestRunState) (e : HeartbeatEvent) : QuestRunState :=
  if s.subscribed = false then s
  else if e.questId ≠ questId then s
  else
    let progress := progCodePlay configVersion e
    if jsTruthyFlag (mapGet s.completingQuest questId) = false ∨
        (secondsNeeded : ℚ) ≤ progress then
      let s1 : QuestRunState :=
        { s with
            fakeGames := s.fakeGames.filter (· ≠ questId),
            subscribed := false }
      if (secondsNeeded : ℚ) ≤ progress then
        { s1 with completions := s1.completions + 1 }
      else
        { s1 with completingQuest := mapSet s1.completingQuest questId false }
    else s

/-- Deliver an in-order list of heartbeat events to the stream handler. -/
def runStreamEvents (questId : String) (secondsNeeded configVersion : Nat)
    (s : QuestRunState) (events : List HeartbeatEvent) : QuestRunState :=
  events.foldl (streamOnDesktopEvent questId secondsNeeded configVersion) s

/-- Deliver an in-order list of heartbeat events to the play handler. -/
def runPlayEvents (questId : String) (secondsNeeded configVersion : Nat)
    (s : QuestRunState) (events : List HeartbeatEvent) : QuestRunState :=
  events.foldl (playOnDesktopEvent questId secondsNeeded configVersion) s

/-! ## Redeem-code extraction and persistence

Source: `gatherRedeemCodes` and `appendRedeemCodes` in the orchestrator.
Arbitrary JSON-like response bodies are modelled by `JsValue`. -/

/-- A JSON-like JavaScript value, as walked by `gatherRedeemCodes`. -/
inductive JsValue where
  | str : String → JsValue
  | num : ℚ → JsValue
  | bool : Bool → JsValue
  | null : JsValue
  | arr : List JsValue → JsValue
  | obj : List (String × JsValue) → JsValue

/-- The conservative code pattern of the source, regex
`[A-Za-z0-9-]` repeated at least 8 times spanning the whole string. -/
def codePatternTest (s : String) : Bool :=
  8 ≤ s.data.length && s.data.all (fun c => c.isAlphanum || c = '-')

/-- The known field names checked first on every object. -/
def keysToCheck : List String :=
  ["code", "redemptionCode", "gift_code", "giftCode", "redeemableCode",
   "claimCode"]

/-- Model of the inner `walk` of `gatherRedeemCodes`. The JS recursion
stops at `depth > 3` and every recursive call increments `depth`; here
`fuel = 4 - depth` and every recursive call decrements it. On an object,
the known keys are walked first, then every directly nested string is
pattern-tested (with no depth guard, as in the source) and every nested
object or array is walked. -/
def gatherWalk : Nat → JsValue → List String → List String
  | 0, _, acc => acc
  | _ + 1, JsValue.null, acc => acc
  | _ + 1, JsValue.str s, acc =>
    if codePatternTest (jsTrim s) then insertUnique acc (jsTrim s) else acc
  | _ + 1, JsValue.num _, acc => acc
  | _ + 1, JsValue.bool _, acc => acc
  | fuel + 1, JsValue.arr items, acc =>
    items.foldl (fun a v => gatherWalk fuel v a) acc
  | fuel + 1, JsValue.obj fields, acc =>
    let acc1 := keysToCheck.foldl
      (fun a key =>
        match mapGet fields key with
        | some v => gatherWalk fuel v a
        | none => a) acc
    fields.foldl
      (fun a p =>
        match p.2 with
        | JsValue.str s =>
          if codePatternTest (jsTrim s) then insertUnique a (jsTrim s) else a
        | JsValue.obj f => gatherWalk fuel (JsValue.obj f) a
        | JsValue.arr f => gatherWalk fuel (JsValue.arr f) a
        | JsValue.null => a
        | _ => a) acc1

/-- Model of `gatherRedeemCodes`: walk the body from depth 0 and return
the collected codes in insertion order. -/
def gatherRedeemCodes (body : JsValue) : List String :=
  gatherWalk 4 body []

/-- The persisted entry format: `code (questName @ timestamp)`. -/
def redeemEntry (code questName timestamp : String) : String :=
  code ++ " (" ++ questName ++ " @ " ++ timestamp ++ ")"

/-- The existing persisted lines: split on newlines, trimmed, blanks
dropped. -/
def existingLines (store : String) : List String :=
  ((splitOnNewline store).map jsTrim).filter (fun x => x ≠ "")

/-- Model of `appendRedeemCodes`: no codes leaves the store unchanged;
otherwise the new entries (newest first) are merged ahead of the existing
lines through a JS `Set`, deduplicating by exact entry text. -/
def appendRedeemCodes (codes : List String) (questName timestamp store : String) :
    String :=
  if codes = [] then store
  else
    let newEntries := codes.map (fun c => redeemEntry c questName timestamp)
    joinWithNewline (dedupList (newEntries ++ existingLines store))

/-! ## Claim procedure

Source: `claimQuestReward` in the orchestrator, with its `claimingQuest`
deduplication set. `callWithRetry` lives in `utils/retry`, outside the
excerpted sources, and is modelled from the spec. Remote outcomes are
supplied per attempt; a thrown error is an `ApiResponse` (inspectable by
challenge detection), a success is a `JsValue` response. -/

/-- Modelled from the spec: `callWithRetry` of `utils/retry` (not among the
excerpted sources) invokes the operation and, on failure, retries up to a
fixed bound with backoff, propagating the last failure. `op n` is the
outcome of attempt `n`; the result is paired with the number of attempts
made (each one a remote call). -/
def callWithRetry (op : Nat → Except ApiResponse JsValue) :
    Nat → Nat → Except ApiResponse JsValue × Nat
  | i, 0 => (op i, 1)
  | i, 1 => (op i, 1)
  | i, fuel + 2 =>
    match op i with
    | .ok v => (.ok v, 1)
    | .error _ =>
      let (r, n) := callWithRetry op (i + 1) (fuel + 1)
      (r, n + 1)

/-- JS `res?.body ?? res`: take the `body` field of an object response when
it is present and not null, else the response itself. -/
def jsBodyOrSelf (v : JsValue) : JsValue :=
  match v with
  | JsValue.obj fields =>
    match mapGet fields "body" with
    | some JsValue.null => v
    | some b => b
    | none => v
  | _ => v

/-- External interactions of one claim run: per-attempt outcomes of the
initial call and of the retry after a captcha bypass, the provider/fallback
outcomes used by that bypass, the clock and the timestamp string. -/
structure AttemptNet where
  attempt : Nat → Except ApiResponse JsValue
  retryAttempt : Nat → Except ApiResponse JsValue
  providers : ProviderNet

/-- Model of the local `tryClaim` of `claimQuestReward`: run the call with
retry; on success gather codes from the body. On failure, when automatic
captcha solving is on and the error carries a challenge, run
`bypassCaptcha` (with no preference and no API keys, exactly as the source
calls it) and, if it yields a token, retry the call once more with retry.
Returns success flag, gathered codes, the token cache, and the number of
remote calls made. -/
def tryClaim (autoCaptcha : Bool) (net : AttemptNet) (maxAttempts now : Nat)
    (cache : TokenCache) : Bool × List String × TokenCache × Nat :=
  match callWithRetry net.attempt 0 maxAttempts with
  | (.ok res, n) => (true, gatherRedeemCodes (jsBodyOrSelf res), cache, n)
  | (.error err, n) =>
    if autoCaptcha then
      match detectCaptchaChallenge (some err) with
      | some challenge =>
        let bp := bypassCaptcha now challenge none
          { nopecha := none, twoCaptcha := none, capsolver := none }
          net.providers cache
        if bp.result.success && truthyOptStr bp.result.token then
          match callWithRetry net.retryAttempt 0 maxAttempts with
          | (.ok res2, n2) =>
            (true, gatherRedeemCodes (jsBodyOrSelf res2), bp.cache, n + n2)
          | (.error _, n2) => (false, [], bp.cache, n + n2)
        else (false, [], bp.cache, n)
      | none => (false, [], cache, n)
    else (false, [], cache, n)

/-- The plugin state a claim run touches: the `claimingQuest` dedup set,
the persisted redeem-code list, and the token cache. -/
structure PluginState where
  claimingQuest : List String
  redeemCodes : String
  tokenCache : TokenCache

/-- Model of `claimQuestReward`: guarded by the auto-claim setting, by the
`claimingQuest` dedup set, and by an already-claimed quest; otherwise the
quest id is added to the set, the claim endpoint is tried (then the
`reward-code` fallback endpoint), collected codes of successful attempts
are appended to the persisted list, and the id is removed again
(`finally`). Returns the new state and the number of remote calls made. -/
def claimQuestReward (autoClaim autoCaptcha : Bool) (questId questName : String)
    (claimedAt : Option String) (postNet getNet : AttemptNet)
    (maxAttempts now : Nat) (timestamp : String) (st : PluginState) :
    PluginState × Nat :=
  if autoClaim = false then (st, 0)
  else if questId ∈ st.claimingQuest then (st, 0)
  else if claimedAt.isSome then (st, 0)
  else
    let claiming1 := insertUnique st.claimingQuest questId
    let (claimed1, codes1, cache1, n1) :=
      tryClaim autoCaptcha postNet maxAttempts now st.tokenCache
    let (claimed, codes, cache2, n2) :=
      if claimed1 then (true, codes1, cache1, n1)
      else
        let (c2, cods2, cch2, m2) :=
          tryClaim autoCaptcha getNet maxAttempts now cache1
        (c2, codes1 ++ cods2, cch2, n1 + m2)
    let redeem1 :=
      if claimed then appendRedeemCodes codes questName timestamp st.redeemCodes
      else st.redeemCodes
    ({ claimingQuest := claiming1.erase questId
     , redeemCodes := redeem1, tokenCache := cache2 }, n2)

/-! ## Spec-side predicates

Used to state the claims: the floored-progress threshold test, and the
code part of a persisted redeem line. -/

/-- The claims compare the floored progress value of an event against the
integer target: for the stream task. -/
def meetsFloorStream (T configVersion : Nat) (e : HeartbeatEvent) : Bool :=
  decide ((T : ℤ) ≤ ⌊rawStreamProgress configVersion e⌋)

/-- Same for the play task. -/
def meetsFloorPlay (T configVersion : Nat) (e : HeartbeatEvent) : Bool :=
  decide ((T : ℤ) ≤ ⌊rawPlayProgress configVersion e⌋)

/-- The Bool comparison the handlers actually evaluate, for the stream
task. -/
def meetsCodeStream (T configVersion : Nat) (e : HeartbeatEvent) : Bool :=
  decide ((T : ℚ) ≤ progCodeStream configVersion e)

/-- Same for the play task. -/
def meetsCodePlay (T configVersion : Nat) (e : HeartbeatEvent) : Bool :=
  decide ((T : ℚ) ≤ progCodePlay configVersion e)

/-- The code part of a persisted redeem line: the text before the first
space. -/
def lineCode (l : String) : String :=
  ⟨l.data.takeWhile (fun c => c ≠ ' ')⟩

/-! ### Basic cache lemmas -/

theorem mapGet_mapSet_self {α : Type} (m : List (String × α)) (k : String) (v : α) :
    mapGet (mapSet m k v) k = some v := by
  induction m with
  | nil => simp [mapGet, mapSet]
  | cons hd tl ih =>
    by_cases h : hd.1 = k
    · simp [mapSet, mapGet, h]
    · simp [mapSet, mapGet, h, ih]

theorem getCachedToken_hit_snd (now : Nat) (k : String) (c : TokenCache) (tok : String)
    (h : (getCachedToken now k c).1 = some tok) :
    getCachedToken now k c = (some tok, c) := by
  unfold getCachedToken at h ⊢
  cases hm : mapGet c k with
  | none => simp [hm] at h
  | some e =>
    by_cases he : e.expiresAt < now
    · simp [hm, he] at h
    · simp [hm, he] at h ⊢
      exact h

/-! ### Floored-threshold lemmas -/

theorem natCast_le_iff_le_floor (T : Nat) (x : ℚ) :
    (T : ℚ) ≤ x ↔ (T : ℤ) ≤ ⌊x⌋ := by
  rw [Int.le_floor, Int.cast_natCast]

theorem meetsCodeStream_eq_floor (T v : Nat) (e : HeartbeatEvent) :
    meetsCodeStream T v e = meetsFloorStream T v e := by
  unfold meetsCodeStream meetsFloorStream progCodeStream rawStreamProgress
  by_cases h : v = 1
  · simp only [h, if_pos]
    exact decide_eq_decide.mpr (natCast_le_iff_le_floor T _)
  · simp only [if_neg h]
    refine decide_eq_decide.mpr ?_
    constructor <;> intro hx <;> exact_mod_cast hx

theorem meetsCodePlay_eq_floor (T v : Nat) (e : HeartbeatEvent) :
    meetsCodePlay T v e = meetsFloorPlay T v e := by
  unfold meetsCodePlay meetsFloorPlay progCodePlay rawPlayProgress
  by_cases h : v = 1
  · simp only [h, if_pos]
    exact decide_eq_decide.mpr (natCast_le_iff_le_floor T _)
  · simp only [if_neg h]
    refine decide_eq_decide.mpr ?_
    constructor <;> intro hx <;> exact_mod_cast hx

/-! ### Handler step lemmas -/

theorem streamEvent_unsub (qid : String) (T v : Nat) (s : QuestRunState)
    (e : HeartbeatEvent) (h : s.subscribed = false) :
    streamOnDesktopEvent qid T v s e = s := by
  unfold streamOnDesktopEvent
  simp [h]

theorem playEvent_unsub (qid : String) (T v : Nat) (s : QuestRunState)
    (e : HeartbeatEvent) (h : s.subscribed = false) :
    playOnDesktopEvent qid T v s e = s := by
  unfold playOnDesktopEvent
  simp [h]

theorem runStreamEvents_unsub (qid : String) (T v : Nat)
    (events : List HeartbeatEvent) (s : QuestRunState)
    (h : s.subscribed = false) :
    runStreamEvents qid T v s events = s := by
  induction events with
  | nil => rfl
  | cons e es ih =>
    have hcons : runStreamEvents qid T v s (e :: es) =
        runStreamEvents qid T v (streamOnDesktopEvent qid T v s e) es := rfl
    rw [hcons, streamEvent_unsub qid T v s e h]
    exact ih

theorem runPlayEvents_unsub (qid : String) (T v : Nat)
    (events : List HeartbeatEvent) (s : QuestRunState)
    (h : s.subscribed = false) :
    runPlayEvents qid T v s events = s := by
  induction events with
  | nil => rfl
  | cons e es ih =>
    have hcons : runPlayEvents qid T v s (e :: es) =
        runPlayEvents qid T v (playOnDesktopEvent qid T v s e) es := rfl
    rw [hcons, playEvent_unsub qid T v s e h]
    exact ih

theorem streamEvent_active_skip (qid : String) (T v : Nat) (s : QuestRunState)
    (e : HeartbeatEvent) (hsub : s.subscribed = true) (hq : e.questId = qid)
    (htr : jsTruthyFlag (mapGet s.completingQuest qid) = true)
    (hp : ¬ (T : ℚ) ≤ progCodeStream v e) :
    streamOnDesktopEvent qid T v s e = s := by
  unfold streamOnDesktopEvent
  rw [hsub, hq]
  simp [htr, hp]

theorem playEvent_active_skip (qid : String) (T v : Nat) (s : QuestRunState)
    (e : HeartbeatEvent) (hsub : s.subscribed = true) (hq : e.questId = qid)
    (htr : jsTruthyFlag (mapGet s.completingQuest qid) = true)
    (hp : ¬ (T : ℚ) ≤ progCodePlay v e) :
    playOnDesktopEvent qid T v s e = s := by
  unfold playOnDesktopEvent
  rw [hsub, hq]
  simp [htr, hp]

theorem streamEvent_complete (qid : String) (T v : Nat) (s : QuestRunState)
    (e : HeartbeatEvent) (hsub : s.subscribed = true) (hq : e.questId = qid)
    (hp : (T : ℚ) ≤ progCodeStream v e) :
    streamOnDesktopEvent qid T v s e =
      { s with
          fakeApplications := s.fakeApplications.filter (· ≠ qid),
          subscribed := false,
          completions := s.completions + 1 } := by
  unfold streamOnDesktopEvent
  rw [hsub, hq]
  simp [hp]

theorem playEvent_complete (qid : String) (T v : Nat) (s : QuestRunState)
    (e : HeartbeatEvent) (hsub : s.subscribed = true) (hq : e.questId = qid)
    (hp : (T : ℚ) ≤ progCodePlay v e) :
    playOnDesktopEvent qid T v s e =
      { s with
          fakeGames := s.fakeGames.filter (· ≠ qid),
          subscribed := false,
          completions := s.completions + 1 } := by
  unfold playOnDesktopEvent
  rw [hsub, hq]
  simp [hp]

theorem runStreamEvents_active (qid : String) (T v : Nat)
    (events : List HeartbeatEvent) (he : ∀ e ∈ events, e.questId = qid)
    (s : QuestRunState) (hsub : s.subscribed = true)
    (htr : jsTruthyFlag (mapGet s.completingQuest qid) = true) :
    (runStreamEvents qid T v s events).completions =
      if events.any (meetsCodeStream T v) then s.completions + 1
      else s.completions := by
  induction events generalizing s with
  | nil => simp [runStreamEvents]
  | cons e es ih =>
    have hq : e.questId = qid := he e (by simp)
    have hes : ∀ x ∈ es, x.questId = qid := fun x hx => he x (by simp [hx])
    have hcons : runStreamEvents qid T v s (e :: es) =
        runStreamEvents qid T v (streamOnDesktopEvent qid T v s e) es := rfl
    by_cases hp : (T : ℚ) ≤ progCodeStream v e
    · rw [hcons, streamEvent_complete qid T v s e hsub hq hp,
        runStreamEvents_unsub qid T v es _ rfl]
      simp [List.any_cons, meetsCodeStream, hp]
    · rw [hcons, streamEvent_active_skip qid T v s e hsub hq htr hp,
        ih hes s hsub htr]
      simp [List.any_cons, meetsCodeStream, hp]

theorem runPlayEvents_active (qid : String) (T v : Nat)
    (events : List HeartbeatEvent) (he : ∀ e ∈ events, e.questId = qid)
    (s : QuestRunState) (hsub : s.subscribed = true)
    (htr : jsTruthyFlag (mapGet s.completingQuest qid) = true) :
    (runPlayEvents qid T v s events).completions =
      if events.any (meetsCodePlay T v) then s.completions + 1
      else s.completions := by
  induction events generalizing s with
  | nil => simp [runPlayEvents]
  | cons e es ih =>
    have hq : e.questId = qid := he e (by simp)
    have hes : ∀ x ∈ es, x.questId = qid := fun x hx => he x (by simp [hx])
    have hcons : runPlayEvents qid T v s (e :: es) =
        runPlayEvents qid T v (playOnDesktopEvent qid T v s e) es := rfl
    by_cases hp : (T : ℚ) ≤ progCodePlay v e
    · rw [hcons, playEvent_complete qid T v s e hsub hq hp,
        runPlayEvents_unsub qid T v es _ rfl]
      simp [List.any_cons, meetsCodePlay, hp]
    · rw [hcons, playEvent_active_skip qid T v s e hsub hq htr hp,
        ih hes s hsub htr]
      simp [List.any_cons, meetsCodePlay, hp]

theorem streamEvent_stop (qid : String) (T v : Nat) (s : QuestRunState)
    (e : HeartbeatEvent) (hsub : s.subscribed = true) (hq : e.questId = qid)
    (htr : jsTruthyFlag (mapGet s.completingQuest qid) = false) :
    streamOnDesktopEvent qid T v s e =
      if (T : ℚ) ≤ progCodeStream v e then
        { s with
            fakeApplications := s.fakeApplications.filter (· ≠ qid),
            subscribed := false,
            completions := s.completions + 1 }
      else
        { s with
            fakeApplications := s.fakeApplications.filter (· ≠ qid),
            subscribed := false,
            completingQuest := mapSet s.completingQuest qid false } := by
  unfold streamOnDesktopEvent
  rw [hsub, hq]
  simp [htr]

theorem playEvent_stop (qid : String) (T v : Nat) (s : QuestRunState)
    (e : HeartbeatEvent) (hsub : s.subscribed = true) (hq : e.questId = qid)
    (htr : jsTruthyFlag (mapGet s.completingQuest qid) = false) :
    playOnDesktopEvent qid T v s e =
      if (T : ℚ) ≤ progCodePlay v e then
        { s with
            fakeGames := s.fakeGames.filter (· ≠ qid),
            subscribed := false,
            completions := s.completions + 1 }
      else
        { s with
            fakeGames := s.fakeGames.filter (· ≠ qid),
            subscribed := false,
            completingQuest := mapSet s.completingQuest qid false } := by
  unfold playOnDesktopEvent
  rw [hsub, hq]
  simp [htr]

/-! ### Claim C1 -/

/-- Claim C1, counterexample. The claim states that once the
CompletionTracker entry of an objective is set to stop-requested, no
subsequent progress event causes the completion callback to be invoked,
even if that event meets the target. In the code, a matching event whose
progress meets the target still fires the completion callback: with the
tracker entry for `"q"` set to stop-requested (`false`), target 120 and a
subsequent event carrying progress 125, the stream handler invokes the
completion callback once. -/
theorem c1_stop_requested_counterexample :
    (runStreamEvents "q" 120 2
      { completingQuest := [("q", false)], fakeApplications := ["q"]
      , fakeGames := [], subscribed := true, completions := 0 }
      [{ questId := "q"
       , userStatus := { streamProgressSeconds := 125, progress := fun _ => 125 } }]
      ).completions = 1 := by
  rfl

/-- Claim C1, amended. After the tracker entry is set to stop-requested,
the next matching progress event makes the handler unsubscribe; the
completion callback is invoked on that event exactly when its floored
progress value meets the target, and is never invoked otherwise — so
stop-requested suppresses completion only for events below the target. -/
theorem c1_stop_requested_amended (v T : Nat) (q : String)
    (e : HeartbeatEvent) (events : List HeartbeatEvent) (hq : e.questId = q)
    (m : List (String × Bool)) (apps games : List String)
    (hm : mapGet m q = some false) :
    ((runStreamEvents q T v
        { completingQuest := m, fakeApplications := apps, fakeGames := games
        , subscribed := true, completions := 0 } (e :: events)).completions =
      if meetsFloorStream T v e then 1 else 0) ∧
    ((runPlayEvents q T v
        { completingQuest := m, fakeApplications := apps, fakeGames := games
        , subscribed := true, completions := 0 } (e :: events)).completions =
      if meetsFloorPlay T v e then 1 else 0) := by
  have htr : jsTruthyFlag (mapGet m q) = false := by rw [hm]; rfl
  constructor
  · have hcons : runStreamEvents q T v
        { completingQuest := m, fakeApplications := apps, fakeGames := games
        , subscribed := true, completions := 0 } (e :: events) =
        runStreamEvents q T v
          (streamOnDesktopEvent q T v
            { completingQuest := m, fakeApplications := apps
            , fakeGames := games, subscribed := true, completions := 0 } e)
          events := rfl
    rw [hcons, streamEvent_stop q T v _ e rfl hq htr,
      ← meetsCodeStream_eq_floor T v e]
    by_cases hp : (T : ℚ) ≤ progCodeStream v e
    · rw [if_pos hp, runStreamEvents_unsub q T v events _ rfl]
      simp [meetsCodeStream, hp]
    · rw [if_neg hp, runStreamEvents_unsub q T v events _ rfl]
      simp [meetsCodeStream, hp]
  · have hcons : runPlayEvents q T v
        { completingQuest := m, fakeApplications := apps, fakeGames := games
        , subscribed := true, completions := 0 } (e :: events) =
        runPlayEvents q T v
          (playOnDesktopEvent q T v
            { completingQuest := m, fakeApplications := apps
            , fakeGames := games, subscribed := true, completions := 0 } e)
          events := rfl
    rw [hcons, playEvent_stop q T v _ e rfl hq htr,
      ← meetsCodePlay_eq_floor T v e]
    by_cases hp : (T : ℚ) ≤ progCodePlay v e
    · rw [if_pos hp, runPlayEvents_unsub q T v events _ rfl]
      simp [meetsCodePlay, hp]
    · rw [if_neg hp, runPlayEvents_unsub q T v events _ rfl]
      simp [meetsCodePlay, hp]

/-- Witness for the amended claim C1: with target 120, stop-requested set
and a subsequent event carrying 119, neither handler fires a completion. -/
theorem c1_stop_requested_amended_witness :
    ((runStreamEvents "q" 120 2
      { completingQuest := [("q", false)], fakeApplications := []
      , fakeGames := [], subscribed := true, completions := 0 }
      [{ questId := "q"
       , userStatus := { streamProgressSeconds := 119, progress := fun _ => 119 } }]
      ).completions = 0) ∧
    ((runPlayEvents "q" 120 2
      { completingQuest := [("q", false)], fakeApplications := []
      , fakeGames := [], subscribed := true, completions := 0 }
      [{ questId := "q"
       , userStatus := { streamProgressSeconds := 119, progress := fun _ => 119 } }]
      ).completions = 0) := by
  have h := c1_stop_requested_amended 2 120 "q"
    { questId := "q"
    , userStatus := { streamProgressSeconds := 119, progress := fun _ => 119 } }
    [] rfl [("q", false)] [] [] rfl
  have hs : meetsFloorStream 120 2
      { questId := "q"
      , userStatus := { streamProgressSeconds := 119, progress := fun _ => 119 } }
      = false := by decide
  have hp : meetsFloorPlay 120 2
      { questId := "q"
      , userStatus := { streamProgressSeconds := 119, progress := fun _ => 119 } }
      = false := by decide
  rw [hs, hp] at h
  simpa using h

/-! ### Claim C2 -/

/-- Claim C2: for an objective with integer target `T` and an in-order
sequence of progress events for its id, with no stop request issued (the
tracker entry is truthy), the handler invokes the completion callback
exactly once, on the first event whose floored progress value is at least
`T`, and zero times if no event reaches `T`: after any prefix of the
event sequence the completion count is 1 exactly when that prefix already
contains an event with floored progress at least `T`, and 0 otherwise.
Holds for both the stream and the play handler. -/
theorem c2_completion_exactly_once (v T : Nat) (q : String)
    (events l₁ l₂ : List HeartbeatEvent) (happ : events = l₁ ++ l₂)
    (he : ∀ e ∈ events, e.questId = q)
    (m : List (String × Bool)) (apps games : List String)
    (hm : jsTruthyFlag (mapGet m q) = true) :
    ((runStreamEvents q T v
        { completingQuest := m, fakeApplications := apps, fakeGames := games
        , subscribed := true, completions := 0 } l₁).completions =
      if l₁.any (meetsFloorStream T v) then 1 else 0) ∧
    ((runPlayEvents q T v
        { completingQuest := m, fakeApplications := apps, fakeGames := games
        , subscribed := true, completions := 0 } l₁).completions =
      if l₁.any (meetsFloorPlay T v) then 1 else 0) := by
  have he₁ : ∀ e ∈ l₁, e.questId = q := by
    intro e hx
    exact he e (by rw [happ]; exact List.mem_append_left _ hx)
  have hfs : l₁.any (meetsCodeStream T v) = l₁.any (meetsFloorStream T v) := by
    have hfun : meetsCodeStream T v = meetsFloorStream T v :=
      funext (meetsCodeStream_eq_floor T v)
    rw [hfun]
  have hfp : l₁.any (meetsCodePlay T v) = l₁.any (meetsFloorPlay T v) := by
    have hfun : meetsCodePlay T v = meetsFloorPlay T v :=
      funext (meetsCodePlay_eq_floor T v)
    rw [hfun]
  constructor
  · rw [runStreamEvents_active q T v l₁ he₁ _ rfl hm, hfs]
  · rw [runPlayEvents_active q T v l₁ he₁ _ rfl hm, hfp]

/-- Witness for claim C2: target 120, event progress sequence
10, 40, 90, 125 yields exactly one completion on both handlers. -/
theorem c2_completion_exactly_once_witness :
    ((runStreamEvents "q" 120 2
      { completingQuest := [("q", true)], fakeApplications := []
      , fakeGames := [], subscribed := true, completions := 0 }
      [{ questId := "q"
       , userStatus := { streamProgressSeconds := 10, progress := fun _ => 10 } },
       { questId := "q"
       , userStatus := { streamProgressSeconds := 40, progress := fun _ => 40 } },
       { questId := "q"
       , userStatus := { streamProgressSeconds := 90, progress := fun _ => 90 } },
       { questId := "q"
       , userStatus := { streamProgressSeconds := 125, progress := fun _ => 125 } }]
      ).completions = 1) ∧
    ((runPlayEvents "q" 120 2
      { completingQuest := [("q", true)], fakeApplications := []
      , fakeGames := [], subscribed := true, completions := 0 }
      [{ questId := "q"
       , userStatus := { streamProgressSeconds := 10, progress := fun _ => 10 } },
       { questId := "q"
       , userStatus := { streamProgressSeconds := 40, progress := fun _ => 40 } },
       { questId := "q"
       , userStatus := { streamProgressSeconds := 90, progress := fun _ => 90 } },
       { questId := "q"
       , userStatus := { streamProgressSeconds := 125, progress := fun _ => 125 } }]
      ).completions = 1) := by
  have h := c2_completion_exactly_once 2 120 "q"
    [{ questId := "q"
     , userStatus := { streamProgressSeconds := 10, progress := fun _ => 10 } },
     { questId := "q"
     , userStatus := { streamProgressSeconds := 40, progress := fun _ => 40 } },
     { questId := "q"
     , userStatus := { streamProgressSeconds := 90, progress := fun _ => 90 } },
     { questId := "q"
     , userStatus := { streamProgressSeconds := 125, progress := fun _ => 125 } }]
    [{ questId := "q"
     , userStatus := { streamProgressSeconds := 10, progress := fun _ => 10 } },
     { questId := "q"
     , userStatus := { streamProgressSeconds := 40, progress := fun _ => 40 } },
     { questId := "q"
     , userStatus := { streamProgressSeconds := 90, progress := fun _ => 90 } },
     { questId := "q"
     , userStatus := { streamProgressSeconds := 125, progress := fun _ => 125 } }]
    [] (by simp)
    (by
      intro e hx
      simp only [List.mem_cons, List.not_mem_nil, or_false] at hx
      rcases hx with rfl | rfl | rfl | rfl <;> rfl)
    [("q", true)] [] [] rfl
  rcases h with ⟨h1, h2⟩
  constructor
  · rw [h1]; decide
  · rw [h2]; decide

/-! ### Claim C4 -/

/-- Claim C4: for every site-key, a lookup after storing a token returns
exactly the stored token at any time strictly before the 2-minute TTL has
elapsed, returns absent at any time after the TTL has elapsed, and — in
general — an expired entry is never returned by a lookup. -/
theorem c4_token_cache_ttl (cache : TokenCache) (k tok : String) (t0 t : Nat) :
    ((t < t0 + CACHE_LIFETIME_MS →
        (getCachedToken t k (cacheToken t0 k tok cache)).1 = some tok) ∧
      (t0 + CACHE_LIFETIME_MS < t →
        (getCachedToken t k (cacheToken t0 k tok cache)).1 = none)) ∧
    (∀ (c : TokenCache) (sk tk : String),
        (getCachedToken t sk c).1 = some tk →
        ∃ en, mapGet c sk = some en ∧ en.token = tk ∧ t ≤ en.expiresAt) := by
  have hget : mapGet (cacheToken t0 k tok cache) k =
      some { token := tok, sitekey := k, timestamp := t0
           , expiresAt := t0 + CACHE_LIFETIME_MS } :=
    mapGet_mapSet_self cache k _
  refine ⟨⟨?_, ?_⟩, ?_⟩
  · intro h
    unfold getCachedToken
    rw [hget]
    have hlt : ¬ (t0 + CACHE_LIFETIME_MS < t) := by omega
    simp [hlt]
  · intro h
    unfold getCachedToken
    rw [hget]
    simp [h]
  · intro c sk tk h
    unfold getCachedToken at h
    cases hm : mapGet c sk with
    | none => rw [hm] at h; simp at h
    | some en =>
      rw [hm] at h
      by_cases he : en.expiresAt < t
      · simp [he] at h
      · simp [he] at h
        exact ⟨en, rfl, h, by omega⟩

/-- Witness for claim C4: a token stored at time 0 is returned at time 5
and absent at time 120001. -/
theorem c4_token_cache_ttl_witness :
    (getCachedToken 5 "sk" (cacheToken 0 "sk" "tok" [])).1 = some "tok" ∧
    (getCachedToken 120001 "sk" (cacheToken 0 "sk" "tok" [])).1 = none :=
  ⟨(c4_token_cache_ttl [] "sk" "tok" 0 5).1.1 (by decide),
   (c4_token_cache_ttl [] "sk" "tok" 0 120001).1.2 (by decide)⟩

/-! ### Claim C5 -/

/-- Claim C5, counterexample. The claim states that detection returns a
challenge descriptor exactly when the challenge key or site identifier is
present at the top level or under `body`. In the code the guards use JS
truthiness, so an object whose `captcha_sitekey` field is present with the
empty-string value (and no other challenge field) yields `null` even
though the site-identifier field is present. -/
theorem c5_detection_counterexample :
    detectCaptchaChallenge
      (some { top := { captcha_key := none, captcha_sitekey := some ""
                     , captcha_service := none, captcha_rqdata := none
                     , captcha_rqtoken := none, extra := ["message", "errors"] }
            , body := none }) = none ∧
    (some "" : Option String).isSome = true := by
  constructor <;> rfl

/-- Claim C5, amended: detection returns a descriptor exactly when a
JS-truthy challenge field is present at the top level or one level under
`body` — the challenge-key field counts whenever present (any array), the
site-identifier field only when present and non-empty — and returns null
for every object with neither, whatever unrelated fields it carries. -/
theorem c5_detection_amended (r : ApiResponse) :
    (detectCaptchaChallenge (some r)).isSome =
      (hasChallengeMarkers r.top ||
        (match r.body with
          | some b => hasChallengeMarkers b
          | none => false)) := by
  unfold detectCaptchaChallenge
  by_cases h : hasChallengeMarkers r.top
  · simp [h]
  · cases hb : r.body with
    | none => simp [h, hb]
    | some b =>
      by_cases h2 : hasChallengeMarkers b <;> simp [h, hb, h2]

/-! ### Claim C6 -/

/-- Claim C6: for every challenge whose site-key has an unexpired cached
token, resolution returns that cached token as a success, invokes no
provider and no DOM fallback, and leaves the cache unchanged, regardless
of preference, configured providers and network outcomes. (An empty
site-key is treated by the code as absent, hence the non-emptiness
hypothesis.) -/
theorem c6_cached_token_no_provider (now : Nat) (ch : CaptchaChallenge)
    (pref : Option String) (keys : ApiKeys) (net : ProviderNet)
    (cache : TokenCache) (k tok : String)
    (hk : ch.captcha_sitekey = some k) (hne : k ≠ "")
    (hit : (getCachedToken now k cache).1 = some tok) :
    bypassCaptcha now ch pref keys net cache =
      { result := { success := true, token := some tok, error := none }
      , cache := cache, providerCalls := [], fallbackTried := false } := by
  have h2 := getCachedToken_hit_snd now k cache tok hit
  unfold bypassCaptcha
  rw [hk]
  simp only [truthyOptStr, Option.getD_some]
  simp [hne, h2]

/-- Witness for claim C6: with all three providers configured and
succeeding, a fresh cached token is still returned directly, with no
provider invoked. -/
theorem c6_cached_token_no_provider_witness :
    bypassCaptcha 1000
      { captcha_key := none, captcha_sitekey := some "s"
      , captcha_service := some "hcaptcha", captcha_rqdata := none
      , captcha_rqtoken := none }
      (some "auto")
      { nopecha := some "kn", twoCaptcha := some "kt", capsolver := some "kc" }
      { nopecha := { success := true, token := some "n1", error := none }
      , capsolver := { success := true, token := some "n2", error := none }
      , twoCaptcha := { success := true, token := some "n3", error := none }
      , fallback := { success := true, token := some "n4", error := none } }
      [("s", { token := "cachedTok", sitekey := "s", timestamp := 0
             , expiresAt := 999999 })] =
      { result := { success := true, token := some "cachedTok", error := none }
      , cache := [("s", { token := "cachedTok", sitekey := "s", timestamp := 0
                        , expiresAt := 999999 })]
      , providerCalls := [], fallbackTried := false } :=
  c6_cached_token_no_provider 1000 _ _ _ _ _ "s" "cachedTok" rfl
    (by decide) (by decide)

/-! ### Claim C9 -/

/-- Claim C9: for every challenge descriptor without a (truthy) site-key,
resolution fails with the reason "No sitekey in challenge", invokes no
provider and no DOM fallback, and leaves the token cache untouched. -/
theorem c9_no_sitekey_failure (now : Nat) (ch : CaptchaChallenge)
    (pref : Option String) (keys : ApiKeys) (net : ProviderNet)
    (cache : TokenCache) (h : truthyOptStr ch.captcha_sitekey = false) :
    bypassCaptcha now ch pref keys net cache =
      { result := { success := false, token := none
                  , error := some "No sitekey in challenge" }
      , cache := cache, providerCalls := [], fallbackTried := false } := by
  unfold bypassCaptcha
  simp [h]

/-- Witness for claim C9: a challenge with no site-key fails with the
stated reason even with providers configured and a non-empty cache. -/
theorem c9_no_sitekey_failure_witness :
    bypassCaptcha 1000
      { captcha_key := some ["k"], captcha_sitekey := none
      , captcha_service := some "hcaptcha", captcha_rqdata := none
      , captcha_rqtoken := none }
      (some "auto")
      { nopecha := some "kn", twoCaptcha := some "kt", capsolver := some "kc" }
      { nopecha := { success := true, token := some "n1", error := none }
      , capsolver := { success := true, token := some "n2", error := none }
      , twoCaptcha := { success := true, token := some "n3", error := none }
      , fallback := { success := true, token := some "n4", error := none } }
      [("x", { token := "t", sitekey := "x", timestamp := 0
             , expiresAt := 999999 })] =
      { result := { success := false, token := none
                  , error := some "No sitekey in challenge" }
      , cache := [("x", { token := "t", sitekey := "x", timestamp := 0
                        , expiresAt := 999999 })]
      , providerCalls := [], fallbackTried := false } :=
  c9_no_sitekey_failure 1000 _ _ _ _ _ (by decide)

/-! ### Claim C7 -/

/-- Claim C7: under automatic preference with no cached token, the
key-bearing providers are tried in the fixed order NopeCHA, CapSolver,
2Captcha; when the higher-priority NopeCHA fails and CapSolver succeeds
with token `t`, CapSolver's result is returned, 2Captcha is never invoked,
no fallback runs, and `t` is written to the cache under the requested
site-key with a fresh TTL before being returned. -/
theorem c7_provider_priority (now : Nat) (ch : CaptchaChallenge)
    (keys : ApiKeys) (net : ProviderNet) (cache : TokenCache)
    (k kn kc t : String)
    (hk : ch.captcha_sitekey = some k) (hkne : k ≠ "")
    (hmiss : (getCachedToken now k cache).1 = none)
    (hkn : keys.nopecha = some kn) (hknne : kn ≠ "")
    (hkc : keys.capsolver = some kc) (hkcne : jsTrim kc ≠ "")
    (hnfail : net.nopecha.success = false)
    (hcs : net.capsolver.success = true)
    (hct : net.capsolver.token = some t) (htne : t ≠ "") :
    bypassCaptcha now ch (some "auto") keys net cache =
      { result := net.capsolver
      , cache := cacheToken now k t ((getCachedToken now k cache).2)
      , providerCalls := ["NopeCHA", "CapSolver"], fallbackTried := false } ∧
    mapGet (bypassCaptcha now ch (some "auto") keys net cache).cache k =
      some { token := t, sitekey := k, timestamp := now
           , expiresAt := now + CACHE_LIFETIME_MS } := by
  rcases hpair : getCachedToken now k cache with ⟨o, c1⟩
  rw [hpair] at hmiss
  obtain rfl : o = none := hmiss
  have hkcne' : kc ≠ "" := by
    intro hh
    apply hkcne
    rw [hh]
    rfl
  have hmain : bypassCaptcha now ch (some "auto") keys net cache =
      { result := net.capsolver, cache := cacheToken now k t c1
      , providerCalls := ["NopeCHA", "CapSolver"], fallbackTried := false } := by
    unfold bypassCaptcha
    rw [hk]
    by_cases hkntrim : jsTrim kn = "" <;>
      simp [truthyOptStr, hkne, hpair, bypassCaptchaSolve, buildServices,
        hkn, hkc, hknne, hkcne, hkcne', runServices, solveWithNopeCHA,
        solveWithCapSolver, hkntrim, hnfail, hcs, hct, htne]
  refine ⟨?_, ?_⟩
  · rw [hmain]
  · rw [hmain]
    simp [cacheToken, mapGet_mapSet_self]

/-- Witness for claim C7: NopeCHA configured but failing, CapSolver
configured and succeeding with token `tokB`, empty cache: CapSolver's
token is returned and cached under the requested site-key. -/
theorem c7_provider_priority_witness :
    bypassCaptcha 1000
      { captcha_key := none, captcha_sitekey := some "s"
      , captcha_service := some "hcaptcha", captcha_rqdata := none
      , captcha_rqtoken := none }
      (some "auto")
      { nopecha := some "kn", twoCaptcha := none, capsolver := some "kc" }
      { nopecha := { success := false, token := none
                   , error := some "NopeCHA down" }
      , capsolver := { success := true, token := some "tokB", error := none }
      , twoCaptcha := { success := false, token := none, error := none }
      , fallback := { success := false, token := none, error := none } }
      [] =
      { result := { success := true, token := some "tokB", error := none }
      , cache := cacheToken 1000 "s" "tokB" []
      , providerCalls := ["NopeCHA", "CapSolver"], fallbackTried := false } ∧
    mapGet (bypassCaptcha 1000
      { captcha_key := none, captcha_sitekey := some "s"
      , captcha_service := some "hcaptcha", captcha_rqdata := none
      , captcha_rqtoken := none }
      (some "auto")
      { nopecha := some "kn", twoCaptcha := none, capsolver := some "kc" }
      { nopecha := { success := false, token := none
                   , error := some "NopeCHA down" }
      , capsolver := { success := true, token := some "tokB", error := none }
      , twoCaptcha := { success := false, token := none, error := none }
      , fallback := { success := false, token := none, error := none } }
      []).cache "s" =
      some { token := "tokB", sitekey := "s", timestamp := 1000
           , expiresAt := 121000 } :=
  c7_provider_priority 1000 _ _ _ [] "s" "kn" "kc" "tokB" rfl (by decide)
    (by decide) rfl (by decide) rfl (by decide) rfl rfl rfl (by decide)

/-! ### Claim C3 -/

/-- Claim C3: whenever the objective id is already in the `claimingQuest`
dedup set, an invocation of the claim procedure returns immediately: the
plugin state (dedup set, persisted codes, token cache) is unchanged and
zero remote calls are issued, for every setting, quest and network
outcome. -/
theorem c3_claim_dedup (autoClaim autoCaptcha : Bool)
    (questId questName : String) (claimedAt : Option String)
    (postNet getNet : AttemptNet) (maxAttempts now : Nat) (ts : String)
    (st : PluginState) (h : questId ∈ st.claimingQuest) :
    claimQuestReward autoClaim autoCaptcha questId questName claimedAt
      postNet getNet maxAttempts now ts st = (st, 0) := by
  unfold claimQuestReward
  cases autoClaim
  · simp
  · simp [h]

/-- Witness for claim C3: the quest id `q1` already mid-claim makes the
procedure a no-op even though the network would answer. -/
theorem c3_claim_dedup_witness :
    claimQuestReward true true "q1" "Quest One" none
      { attempt := fun _ => Except.ok (JsValue.str "WXYZ9876")
      , retryAttempt := fun _ => Except.ok (JsValue.str "WXYZ9876")
      , providers :=
        { nopecha := { success := false, token := none, error := none }
        , capsolver := { success := false, token := none, error := none }
        , twoCaptcha := { success := false, token := none, error := none }
        , fallback := { success := false, token := none, error := none } } }
      { attempt := fun _ => Except.ok (JsValue.str "WXYZ9876")
      , retryAttempt := fun _ => Except.ok (JsValue.str "WXYZ9876")
      , providers :=
        { nopecha := { success := false, token := none, error := none }
        , capsolver := { success := false, token := none, error := none }
        , twoCaptcha := { success := false, token := none, error := none }
        , fallback := { success := false, token := none, error := none } } }
      3 1000 "2025-01-01T00:00:00.000Z"
      { claimingQuest := ["q1"], redeemCodes := "OLD1234 (Old @ T0)"
      , tokenCache := [] } =
      ({ claimingQuest := ["q1"], redeemCodes := "OLD1234 (Old @ T0)"
       , tokenCache := [] }, 0) :=
  c3_claim_dedup true true "q1" "Quest One" none _ _ 3 1000
    "2025-01-01T00:00:00.000Z" _ (by decide)

/-! ### Claim C8 -/

/-- Claim C8, counterexample. The claim states the persisted list is
deduplicated by exact code text. The code deduplicates by the whole entry
line `code (questName @ timestamp)`: appending the code `ABCD1234` for
quest B when the list already holds `ABCD1234` from quest A keeps both
entries, so the same code text appears twice. -/
theorem c8_code_dedup_counterexample :
    appendRedeemCodes ["ABCD1234"] "QuestB" "T2" "ABCD1234 (QuestA @ T1)" =
      "ABCD1234 (QuestB @ T2)\nABCD1234 (QuestA @ T1)" ∧
    (splitOnNewline (appendRedeemCodes ["ABCD1234"] "QuestB" "T2"
        "ABCD1234 (QuestA @ T1)")).countP
      (fun l => lineCode l = "ABCD1234") = 2 := by
  constructor <;> decide

/-- Claim C8, amended: from the body `{reward: {code: "ABCD1234"}}` the
code `ABCD1234` is extracted and persisted as the entry
`ABCD1234 (questName @ timestamp)` merged ahead of the existing lines; a
body with no string matching the code pattern leaves the persisted list
unchanged; the merged entries are deduplicated by exact entry text (code,
objective name and timestamp together), newest first. -/
theorem c8_redeem_codes_amended :
    gatherRedeemCodes (JsValue.obj
      [("reward", JsValue.obj [("code", JsValue.str "ABCD1234")])]) =
      ["ABCD1234"] ∧
    (∀ name ts store,
      appendRedeemCodes
        (gatherRedeemCodes (JsValue.obj
          [("reward", JsValue.obj [("code", JsValue.str "ABCD1234")])]))
        name ts store =
      joinWithNewline (dedupList
        (redeemEntry "ABCD1234" name ts :: existingLines store))) ∧
    (∀ (body : JsValue) (name ts store : String),
      gatherRedeemCodes body = [] →
      appendRedeemCodes (gatherRedeemCodes body) name ts store = store) := by
  have hg : gatherRedeemCodes (JsValue.obj
      [("reward", JsValue.obj [("code", JsValue.str "ABCD1234")])]) =
      ["ABCD1234"] := by decide
  refine ⟨hg, ?_, ?_⟩
  · intro name ts store
    rw [hg]
    simp [appendRedeemCodes]
  · intro body name ts store hb
    rw [hb]
    rfl

/-- Witness for the amended claim C8: the example body persists the entry
with quest name and timestamp; a body with only non-matching strings
leaves the list unchanged. -/
theorem c8_redeem_codes_amended_witness :
    appendRedeemCodes
      (gatherRedeemCodes (JsValue.obj
        [("reward", JsValue.obj [("code", JsValue.str "ABCD1234")])]))
      "QuestName" "TS" "" =
      joinWithNewline (dedupList
        (redeemEntry "ABCD1234" "QuestName" "TS" :: existingLines "")) ∧
    appendRedeemCodes
      (gatherRedeemCodes (JsValue.obj [("message", JsValue.str "ok")]))
      "Q" "T" "L1" = "L1" :=
  ⟨c8_redeem_codes_amended.2.1 "QuestName" "TS" "",
   c8_redeem_codes_amended.2.2 (JsValue.obj [("message", JsValue.str "ok")])
     "Q" "T" "L1" (by decide)⟩

end CompleteDiscordQuest
